import Mathlib

/-!
Shallow embedding of `src/models/hunyuan_video.py` (the diffusion-pipe
HunyuanVideo pipeline plugin) and proofs about its behavior: checkpoint
resolution and loading (`load_state_dict`), state-dict unwrapping, the
per-parameter dtype policy, the text-encoder closures with their mutable
`max_length` field, flow-matching training-input preparation
(`prepare_inputs`), adapter persistence (`save_adapter`), and the
pipeline-parallel `DoubleBlock` stage.

Tensor payloads that the code only moves around (checkpoint entries, adapter
weights) are identified abstractly; tensor math in `prepare_inputs` is
embedded over an arbitrary field, with the batch of random draws passed in
explicitly so that the function is deterministic.
-/

set_option autoImplicit false

namespace HYV

/-- Checkpoint/adapter tensor payloads: the loader and saver move them around
without inspecting their numeric content, so they are identified abstractly. -/
abbrev Tensor := Nat

/-- Torch dtypes that `load_state_dict` distinguishes: the fixed `bfloat16`
baseline (`base_dtype`, line 105) versus the caller-requested training dtype. -/
inductive DType where
  | bf16
  | fp16
  | fp32
  deriving DecidableEq, Repr

/-- Values inside a torch checkpoint as returned by `torch.load` with
`weights_only=True`: a tensor leaf or a nested string-keyed mapping (modelled
as an ordered association list, preserving Python dict iteration order). -/
inductive PyObj where
  | tensor (t : Tensor)
  | dict (entries : List (String × PyObj))

/-- Errors raised by the loader. `ValueError`s cover the unresolvable or
ambiguous checkpoint locations; `KeyError`s (the MissingData class) cover a
missing `load_key` in a wrapped checkpoint (lines 100-103) and a model
parameter absent from the checkpoint (`state_dict[name]`, line 109).
`typeErr` models the `TypeError` Python raises when `None` is used where a
path is required. `notAMapping` models the failure of indexing a non-dict. -/
inductive LoadError where
  | typeErr
  | noModelWeights (dir : String)
  | invalidFormat (ditWeight : String) (files : List String)
  | invalidModelPath (ditWeight : String)
  | modelPathNotExists (path : String)
  | missingLoadKey (loadKey : String) (modelPath : String) (keys : List String)
  | missingParam (name : String)
  | notAMapping
  deriving DecidableEq, Repr

/-- String form of joining a pathlib path with a child entry:
`str(dir / name) = str(dir) + "/" + name`. -/
def pathJoin (d n : String) : String := d ++ "/" ++ n

/-- The `bare_model` variable of `load_state_dict`, which takes the Python
values `True`, `False`, and the string `"unknown"` (lines 42, 50, 85). -/
inductive Bare where
  | yes
  | no
  | unknown
  deriving DecidableEq, Repr

/-- Filesystem facts about the configured `dit_weight` path: whether it is a
directory, whether it is a file, and the ordered `*.pt` glob result (entry
names relative to the directory, in the order `Path.glob` yields them). -/
structure PathInfo where
  isDir : Bool
  isFile : Bool
  globPt : List String
  deriving DecidableEq, Repr

/-- Tests whether the first list is an initial segment of the second
(character lists). -/
def headMatches : List Char → List Char → Bool
  | [], _ => true
  | _ :: _, [] => false
  | p :: ps, c :: cs => p == c && headMatches ps cs

/-- Tests whether `pat` occurs contiguously inside the second list: the
semantics of Python `pat in s` on strings. -/
def occursIn (pat : List Char) : List Char → Bool
  | [] => headMatches pat []
  | c :: cs => headMatches pat (c :: cs) || occursIn pat cs

/-- Python `keyword in name` for strings. -/
def strContains (name kw : String) : Bool := occursIn kw.data name.data

/-- Python `s.startswith(pre)`. -/
def strStarts (s pre : String) : Bool := headMatches pre.data s.data

/-- Python `s.endswith(suf)`: the reversed suffix is an initial segment of
the reversed string. -/
def strEnds (s suf : String) : Bool :=
  headMatches suf.data.reverse s.data.reverse

/-- Checkpoint resolution for an explicitly configured `dit_weight`
(lines 59-87 of `load_state_dict`). Note that line 64 tests
`str(files[0]).startswith("pytorch_model_")` on the full path string produced
by `dit_weight.glob("*.pt")`, not on the file name; the embedding reproduces
this by joining each glob entry onto the directory before the test.
`files[0]` is taken after the emptiness check, so `headD ""` is only ever
applied to a nonempty list. -/
def resolveExplicit (loadKey ditWeight : String) (info : PathInfo) :
    Except LoadError (String × Bare) :=
  if info.isDir then
    let files := info.globPt.map (fun n => pathJoin ditWeight n)
    if files.length = 0 then
      .error (.noModelWeights ditWeight)
    else if strStarts (files.headD "") "pytorch_model_" then
      .ok (pathJoin ditWeight ("pytorch_model_" ++ loadKey ++ ".pt"), .yes)
    else if files.any (fun f => strEnds f "_model_states.pt") then
      .ok ((files.filter (fun f => strEnds f "_model_states.pt")).headD "", .no)
    else
      .error (.invalidFormat ditWeight files)
  else if info.isFile then
    .ok (ditWeight, .unknown)
  else
    .error (.invalidModelPath ditWeight)

/-- A Python variable that may hold `None` or a `pathlib.Path`. -/
inductive PyPathVal where
  | none
  | path (s : String)
  deriving DecidableEq, Repr

/-- Constructing `Path(x)` (line 33): from a string it always succeeds and
never yields `None`; `Path(None)` raises a `TypeError`. -/
def pathCtor : Option String → Except LoadError PyPathVal
  | Option.none => .error .typeErr
  | Option.some s => .ok (.path s)

/-- The `dit_weight is None` branch of `load_state_dict` (lines 35-58):
search `pretrained_model_path / f"t2v_{args.model_resolution}"` for `*.pt`
files. In its `pytorch_model_` sub-branch, line 41 evaluates
`dit_weight / ...` with `dit_weight = None`, which raises a `TypeError`; the
`invalidFormat` message interpolates `dit_weight`, rendering `"None"`. -/
def resolveNoneBranch (pretrainedModelPath modelResolution : String)
    (modelDirGlob : List String) : Except LoadError (String × Bare) :=
  let modelDir := pathJoin pretrainedModelPath ("t2v_" ++ modelResolution)
  let files := modelDirGlob.map (fun n => pathJoin modelDir n)
  if files.length = 0 then
    .error (.noModelWeights modelDir)
  else if strStarts (files.headD "") "pytorch_model_" then
    .error .typeErr
  else if files.any (fun f => strEnds f "_model_states.pt") then
    .ok ((files.filter (fun f => strEnds f "_model_states.pt")).headD "", .no)
  else
    .error (.invalidFormat "None" files)

/-- Checkpoint resolution (lines 35-87): dispatch on `dit_weight is None`,
then on directory/file mode. -/
def resolveDitWeight (loadKey : String) (dw : PyPathVal)
    (pretrainedModelPath modelResolution : String) (modelDirGlob : List String)
    (info : PathInfo) : Except LoadError (String × Bare) :=
  match dw with
  | .none => resolveNoneBranch pretrainedModelPath modelResolution modelDirGlob
  | .path s => resolveExplicit loadKey s info

/-- Python `k in d` for a dict modelled as an ordered association list. -/
def hasKey (sd : List (String × PyObj)) (k : String) : Bool :=
  sd.any (fun kv => kv.1 == k)

/-- Python `d[k]` lookup (first matching key). -/
def lookupKey (sd : List (String × PyObj)) (k : String) : Option PyObj :=
  (sd.find? (fun kv => kv.1 == k)).map (fun kv => kv.2)

/-- Python `list(d.keys())`. -/
def keysOf (sd : List (String × PyObj)) : List String := sd.map (fun kv => kv.1)

/-- Lines 94-95: when wrapping is unknown and the top-level mapping contains
an `ema` or `module` key, infer that the checkpoint is wrapped
(`bare_model = False`); otherwise leave the flag as it was. -/
def inferBare (bare : Bare) (sd : List (String × PyObj)) : Bare :=
  if bare == .unknown && (hasKey sd "ema" || hasKey sd "module") then .no else bare

/-- Lines 96-103: a wrapped checkpoint (`bare_model is False`) is unwrapped at
`load_key`; if `load_key` is absent, raise a `KeyError` naming the key, the
checkpoint path, and the list of available keys. Unwrapped checkpoints are
used as they are. -/
def unwrapLoaded (loadKey modelPath : String) (bare : Bare)
    (sd : List (String × PyObj)) : Except LoadError PyObj :=
  if bare == .no then
    match lookupKey sd loadKey with
    | some v => .ok v
    | none => .error (.missingLoadKey loadKey modelPath (keysOf sd))
  else
    .ok (.dict sd)

/-- Line 106: the parameter-name substrings whose parameters are kept at the
`bfloat16` baseline dtype. -/
def paramsToKeep : List String :=
  ["norm", "bias", "time_in", "vector_in", "guidance_in", "txt_in", "img_in"]

/-- Line 108: the dtype assigned to a named parameter — `bfloat16` when any
keyword of `paramsToKeep` occurs in the name, otherwise the requested dtype. -/
def dtypeToUse (name : String) (dtype : DType) : DType :=
  if paramsToKeep.any (fun kw => strContains name kw) then .bf16 else dtype

/-- One `set_module_tensor_to_device(model, name, device, dtype, value)` call
(line 109), recording where and at which dtype the named parameter was
materialized and which checkpoint entry supplied its value. -/
structure ParamPlacement where
  name : String
  device : String
  dtype : DType
  value : PyObj

/-- Lines 107-109: materialize every named model parameter, in order, onto
CPU at its assigned dtype, sourcing the value from the checkpoint entry of
the same name; `state_dict[name]` raises a `KeyError` at the first parameter
with no matching entry. -/
def materializeParams (modelParams : List String) (sd : List (String × PyObj))
    (dtype : DType) : Except LoadError (List ParamPlacement) :=
  match modelParams with
  | [] => .ok []
  | name :: rest =>
    match lookupKey sd name with
    | Option.none => .error (.missingParam name)
    | Option.some v =>
      match materializeParams rest sd dtype with
      | .error e => .error e
      | .ok tail =>
        .ok ({ name := name, device := "cpu", dtype := dtypeToUse name dtype,
               value := v } :: tail)

/-- Full `load_state_dict` (lines 31-110): construct `Path(args.dit_weight)`,
resolve the checkpoint path and wrapping mode, check existence, load
(`contents` maps each existing path to its `torch.load` result; `none` models
a nonexistent path), infer wrapping and unwrap, then materialize every model
parameter. -/
def loadStateDict (loadKey : String) (argsDitWeight : Option String)
    (pretrainedModelPath modelResolution : String) (modelDirGlob : List String)
    (info : PathInfo) (contents : String → Option (List (String × PyObj)))
    (modelParams : List String) (dtype : DType) :
    Except LoadError (List ParamPlacement) :=
  match pathCtor argsDitWeight with
  | .error e => .error e
  | .ok dw =>
    match resolveDitWeight loadKey dw pretrainedModelPath modelResolution
        modelDirGlob info with
    | .error e => .error e
    | .ok (modelPath, bare) =>
      match contents modelPath with
      | Option.none => .error (.modelPathNotExists modelPath)
      | Option.some sd =>
        match unwrapLoaded loadKey modelPath (inferBare bare sd) sd with
        | .error e => .error e
        | .ok (.dict entries) => materializeParams modelParams entries dtype
        | .ok (.tensor _) => .error .notAMapping

/-- Extracts the success value of an `Except`, defaulting on error; used to
name concrete results of the embedded functions. -/
def getOk {ε σ : Type} [Inhabited σ] : Except ε σ → σ
  | .ok x => x
  | .error _ => default

/-- Errors raised by the pipeline orchestrator's closures:
`internalError` models a bare `RuntimeError()` (lines 276 and 314). -/
inductive PipelineError where
  | internalError
  deriving DecidableEq, Repr

/-- Reading `template.get("crop_start", 0)` from a prompt template
(lines 154-159), with the template's `crop_start` field modelled as an
optional value. -/
def cropStartOf (cropStart : Option Nat) : Nat := cropStart.getD 0

/-- Line 157: `self.max_text_length_video = self.args.text_len + crop_start`
with `crop_start` taken from the video prompt template. -/
def maxTextLengthVideo (textLen : Nat) (cropStartVideo : Option Nat) : Nat :=
  textLen + cropStartOf cropStartVideo

/-- Line 160: `self.max_text_length_image = self.args.text_len + crop_start`
with `crop_start` taken from the image prompt template. -/
def maxTextLengthImage (textLen : Nat) (cropStartImage : Option Nat) : Nat :=
  textLen + cropStartOf cropStartImage

/-- Lines 271-276 of `get_call_text_encoder_fn`: identify which registered
encoder (by identity) the closure is being bound to; binding to neither
raises `RuntimeError()`. Encoder instances are identified abstractly. -/
def textEncoderIdx (enc enc1 enc2 : Nat) : Except PipelineError Nat :=
  if enc == enc1 then .ok 1
  else if enc == enc2 then .ok 2
  else .error .internalError

/-- One `encode_prompt` call observed inside the text closure: the
`data_type` passed and the bound encoder's `max_length` in effect at the
moment of the call. -/
structure EncodeEvent where
  dataType : String
  maxLengthAtCall : Nat
  deriving DecidableEq, Repr

/-- The per-sample loop of the text closure (lines 281-306): for each
`is_video` flag, when the closure is bound to the first encoder
(`text_encoder_idx == 1`) the encoder's mutable `max_length` is set to the
video or image limit immediately before encoding; the threaded state is that
mutable field. Returns the encode events in order and the final `max_length`. -/
def runTextClosure (idx maxVideo maxImage : Nat) :
    List Bool → Nat → List EncodeEvent × Nat
  | [], st => ([], st)
  | isVideo :: rest, st =>
    let st' := if isVideo then (if idx == 1 then maxVideo else st)
               else (if idx == 1 then maxImage else st)
    let r := runTextClosure idx maxVideo maxImage rest st'
    (⟨if isVideo then "video" else "image", st'⟩ :: r.1, r.2)

/-- Lines 309-314: the batch-field names a text closure returns, by bound
encoder index; any other index raises `RuntimeError()`. -/
def closureFields (idx : Nat) : Except PipelineError (List String) :=
  if idx == 1 then .ok ["prompt_embeds_1", "prompt_attention_mask_1"]
  else if idx == 2 then .ok ["prompt_embeds_2"]
  else .error .internalError

/-- One persistence effect of `save_adapter`: saving the PEFT configuration
into a directory, or writing a safetensors file at a path with its entries
and its container metadata. -/
inductive SaveAction where
  | savePeftConfig (dir : String)
  | saveFile (path : String) (entries : List (String × Tensor))
      (metadata : List (String × String))
  deriving DecidableEq, Repr

/-- Lines 246-250, `save_adapter`: first `peft_config.save_pretrained`, then
`safetensors.torch.save_file` of the state dict with every key prefixed
`diffusion_model.` into `adapter_model.safetensors`, with metadata
`{"format": "pt"}`. Modelled as the ordered list of persistence effects. -/
def saveAdapter (saveDir : String) (peftStateDict : List (String × Tensor)) :
    List SaveAction :=
  [.savePeftConfig saveDir,
    .saveFile (pathJoin saveDir "adapter_model.safetensors")
      (peftStateDict.map (fun kv => ("diffusion_model." ++ kv.1, kv.2)))
      [("format", "pt")]]

/-- Entries of the `model` sub-dictionary of the config that
`prepare_inputs` reads through `.get(key, default)`; absent entries are
`none`. The value type is the scalar field the tensor arithmetic is embedded
over. -/
structure ModelConfig (α : Type) where
  guidance : Option α
  timestep_sample_method : Option String
  sigmoid_scale : Option α

/-- Error raised by `prepare_inputs` for an unrecognized sampling method
(line 337, `NotImplementedError`). -/
inductive PrepError where
  | notImplemented
  deriving DecidableEq, Repr

/-- The tuple `prepare_inputs` returns (lines 367-377). Latent-shaped tensors
are functions of batch index and (flattened) tensor position; per-batch
scalars are functions of batch index; the text embeddings and rotary tensors
are passed through or produced by vendored code and stay abstract (type `T`). -/
structure PrepOut (α T : Type) where
  x_t : Nat → Nat → α
  t : Nat → α
  prompt_embeds_1 : T
  prompt_attention_mask_1 : T
  prompt_embeds_2 : T
  freqs_cos : T
  freqs_sin : T
  guidance_expand : Nat → α
  target : Nat → Nat → α

instance {α T : Type} [Inhabited α] [Inhabited T] : Inhabited (PrepOut α T) :=
  ⟨⟨fun _ _ => default, fun _ => default, default, default, default, default,
    default, fun _ => default, fun _ _ => default⟩⟩

/-- Lines 332-337: select the base distribution by name and return its
inverse CDF, or `none` for an unrecognized method (`NotImplementedError`).
The standard normal's inverse CDF is transcendental and is supplied by the
caller (`normalIcdf`); `Uniform(0, 1).icdf(q) = 0 + q * (1 - 0) = q`. -/
def distIcdf {α : Type} (method : String) (normalIcdf : α → α) :
    Option (α → α) :=
  if method = "logit_normal" then some normalIcdf
  else if method = "uniform" then some (fun q => q)
  else none

/-- Lines 339-347: the sampled timestep fraction. With a quantile supplied,
`t = dist.icdf(torch.full((bs,), quantile))`, i.e. the inverse CDF of the
base distribution applied to every batch element; otherwise the raw random
draw. When the method is `logit_normal`, `t` is then scaled by
`sigmoid_scale` and passed through the sigmoid. -/
def computeT {α : Type} [Field α] (method : String) (sigmoidScale : α)
    (sigmoidFn icdf : α → α) (tSample : Nat → α) (q : Option α) : Nat → α :=
  let t0 : Nat → α :=
    match q with
    | Option.some qq => fun _ => icdf qq
    | Option.none => tSample
  if method = "logit_normal" then fun b => sigmoidFn (t0 b * sigmoidScale)
  else t0

/-- Lines 317-377, `prepare_inputs`, embedded over a scalar field `α`.
Randomness is passed in explicitly: `noise` is the `torch.randn_like(x_1)`
draw and `tSample` the batch of raw base-distribution samples used when no
quantile is given. `normalIcdf` and `sigmoidFn` model the corresponding
torch functions; `rope` models `get_rotary_pos_embed` and `expandB` the
`.expand(bs, -1, -1)` broadcast. `.float()` promotion of the latents is the
identity in this exact-arithmetic model. The timestep `t` is broadcast over
all non-batch dimensions (`t.view(-1, 1, 1, 1, 1)`), so it is a function of
the batch index alone. -/
def prepareInputs {α T : Type} [Field α] (cfg : ModelConfig α)
    (normalIcdf sigmoidFn : α → α)
    (rope : Nat → Nat → Nat → T × T) (expandB : T → Nat → T)
    (bs numFrames h w : Nat)
    (latents noise : Nat → Nat → α)
    (tSample : Nat → α) (timestepQuantile : Option α)
    (pe1 mask1 pe2 : T) :
    Except PrepError (PrepOut α T) :=
  let guidanceExpand : Nat → α := fun _ => cfg.guidance.getD 1 * 1000
  let method := cfg.timestep_sample_method.getD "logit_normal"
  match distIcdf method normalIcdf with
  | Option.none => .error .notImplemented
  | Option.some icdf =>
    let t1 : Nat → α :=
      computeT method (cfg.sigmoid_scale.getD 1) sigmoidFn icdf tSample
        timestepQuantile
    let x1 := latents
    let x0 := noise
    let xt : Nat → Nat → α := fun b p => (1 - t1 b) * x1 b p + t1 b * x0 b p
    let tgt : Nat → Nat → α := fun b p => x0 b p - x1 b p
    let videoLength := (numFrames - 1) * 4 + 1
    let videoHeight := h * 8
    let videoWidth := w * 8
    let fr := rope videoLength videoHeight videoWidth
    let tFinal : Nat → α := fun b => t1 b * 1000
    .ok { x_t := xt, t := tFinal, prompt_embeds_1 := pe1,
          prompt_attention_mask_1 := mask1, prompt_embeds_2 := pe2,
          freqs_cos := expandB fr.1 bs, freqs_sin := expandB fr.2 bs,
          guidance_expand := guidanceExpand, target := tgt }

/-- Logistic function: `torch.sigmoid` on reals. -/
noncomputable def realSigmoid (x : ℝ) : ℝ := 1 / (1 + Real.exp (-x))

/-- The tuple passed between the double-stream stages of `to_layers`
(line 466 and lines 476-478). All components are tensors living on the
pipeline devices and stay abstract. -/
structure StageTuple (T : Type) where
  img : T
  txt : T
  vec : T
  cu_seqlens : T
  max_seqlen : T
  freqs_cos : T
  freqs_sin : T
  txt_seq_len : T
  img_seq_len : T
  unpatchify_args : T
  target : T

/-- Lines 475-478, `DoubleBlock.forward`: apply the wrapped dual-stream block
to the image and text tokens, conditioned on the modulation vector, the
sequence-length boundaries (passed twice, for queries and keys), the max
sequence length (extracted by `.item()`, modelled by `item`), and the rotary
frequency pair; rebuild the tuple with only `img` and `txt` replaced. -/
def doubleBlockForward {T S : Type} (item : T → S)
    (block : T → T → T → T → T → S → S → T × T → T × T)
    (inp : StageTuple T) : StageTuple T :=
  let r := block inp.img inp.txt inp.vec inp.cu_seqlens inp.cu_seqlens
      (item inp.max_seqlen) (item inp.max_seqlen) (inp.freqs_cos, inp.freqs_sin)
  { inp with img := r.1, txt := r.2 }

instance : Inhabited ParamPlacement := ⟨⟨"", "", .bf16, .tensor 0⟩⟩

/-- Concrete run of the parameter materialization used to evaluate the loader
on explicit data: two parameters, one matching the `img_in` keyword. -/
def c4Placements : List ParamPlacement :=
  getOk (materializeParams ["img_in.w", "p.w"]
    [("img_in.w", PyObj.tensor 1), ("p.w", PyObj.tensor 2)] .fp16)

/-- Concrete run of `prepareInputs` over `ℚ` with the uniform sampler at
quantile 1/2, constant latents 3 and noise 5. -/
def c2Out : PrepOut ℚ Unit :=
  getOk (prepareInputs ⟨Option.none, Option.some "uniform", Option.none⟩
    id id (fun _ _ _ => ((), ())) (fun u _ => u) 1 1 1 1
    (fun _ _ => 3) (fun _ _ => 5) (fun _ => 0) (Option.some (1 / 2)) () () ())

/-- Concrete run of `prepareInputs` over `ℝ` with the logit-normal sampler at
quantile 1/2, the inverse normal CDF instantiated by the constant-zero
function (its true value at 1/2), and the real sigmoid. -/
noncomputable def c3Out : PrepOut ℝ Unit :=
  getOk (prepareInputs ⟨Option.none, Option.some "logit_normal", Option.none⟩
    (fun _ => 0) realSigmoid (fun _ _ _ => ((), ())) (fun u _ => u) 1 1 1 1
    (fun _ _ => 0) (fun _ _ => 0) (fun _ => 0) (Option.some (1 / 2)) () () ())

/-- C1 (evaluation at the failing input): a directory `/ckpt` containing
exactly one file `pytorch_model_ema.pt`, with `load_key = "ema"`, is rejected
with the "unrecognized weight format" ValueError instead of resolving to
`/ckpt/pytorch_model_ema.pt` unwrapped: line 64 applies
`startswith("pytorch_model_")` to the glob's full path string, which begins
with the directory, not with the file name. -/
theorem c1_dir_pytorch_model_rejected :
    resolveExplicit "ema" "/ckpt" ⟨true, false, ["pytorch_model_ema.pt"]⟩ =
      .error (.invalidFormat "/ckpt" ["/ckpt/pytorch_model_ema.pt"]) := by
  rfl

/-- Companion to the C1 evidence: the `pytorch_model_` branch does fire when
the configured directory itself makes the joined path string begin with the
prefix, confirming the test is on the full path rather than the file name. -/
theorem resolveExplicit_fullpath_startswith :
    resolveExplicit "ema" "pytorch_model_x" ⟨true, false, ["a.pt"]⟩ =
      .ok ("pytorch_model_x/pytorch_model_ema.pt", .yes) := by
  rfl

/-- C9: a DoubleBlock stage applies its dual-stream block only to the image
and text token entries, conditioned on the modulation vector, the
sequence-length boundaries, and the rotary frequencies, and returns every
other tuple field — modulation vector, sequence-length boundaries, max
sequence length, rotary cosine and sine, text and image token counts,
unpatchify shape, and regression target — unchanged in its position. -/
theorem c9_double_block_frame {T S : Type} (item : T → S)
    (block : T → T → T → T → T → S → S → T × T → T × T)
    (inp : StageTuple T) :
    (doubleBlockForward item block inp).img =
      (block inp.img inp.txt inp.vec inp.cu_seqlens inp.cu_seqlens
        (item inp.max_seqlen) (item inp.max_seqlen)
        (inp.freqs_cos, inp.freqs_sin)).1 ∧
    (doubleBlockForward item block inp).txt =
      (block inp.img inp.txt inp.vec inp.cu_seqlens inp.cu_seqlens
        (item inp.max_seqlen) (item inp.max_seqlen)
        (inp.freqs_cos, inp.freqs_sin)).2 ∧
    (doubleBlockForward item block inp).vec = inp.vec ∧
    (doubleBlockForward item block inp).cu_seqlens = inp.cu_seqlens ∧
    (doubleBlockForward item block inp).max_seqlen = inp.max_seqlen ∧
    (doubleBlockForward item block inp).freqs_cos = inp.freqs_cos ∧
    (doubleBlockForward item block inp).freqs_sin = inp.freqs_sin ∧
    (doubleBlockForward item block inp).txt_seq_len = inp.txt_seq_len ∧
    (doubleBlockForward item block inp).img_seq_len = inp.img_seq_len ∧
    (doubleBlockForward item block inp).unpatchify_args = inp.unpatchify_args ∧
    (doubleBlockForward item block inp).target = inp.target :=
  ⟨rfl, rfl, rfl, rfl, rfl, rfl, rfl, rfl, rfl, rfl, rfl⟩

/-- C10: whenever `Path(args.dit_weight)` succeeds, the constructed value is
an actual path and never `None`, so the `dit_weight is None` branch (the
search of the resolution-specific model subdirectory) is never taken and
resolution always proceeds through the explicit-path rules. -/
theorem c10_explicit_branch_always (argsDitWeight : Option String)
    (dw : PyPathVal) (h : pathCtor argsDitWeight = .ok dw) :
    ∃ s, dw = .path s ∧
      ∀ (loadKey pmp res : String) (glob : List String) (info : PathInfo),
        resolveDitWeight loadKey dw pmp res glob info =
          resolveExplicit loadKey s info := by
  cases argsDitWeight with
  | none => exact absurd h (by simp [pathCtor])
  | some s =>
    simp only [pathCtor, Except.ok.injEq] at h
    subst h
    exact ⟨s, rfl, fun _ _ _ _ _ => rfl⟩

/-- Witness for C10 at a concrete configured weight path. -/
theorem c10_witness :
    resolveDitWeight "module" (.path "/w.pt") "/base" "720p"
        ["a_model_states.pt"] ⟨false, true, []⟩ =
      resolveExplicit "module" "/w.pt" ⟨false, true, []⟩ := by
  obtain ⟨s, hs, hall⟩ :=
    c10_explicit_branch_always (some "/w.pt") (.path "/w.pt") rfl
  injection hs with h2
  subst h2
  exact hall "module" "/base" "720p" ["a_model_states.pt"] ⟨false, true, []⟩

/-- C6: when the configured weight location is itself a file, wrapping starts
unknown; unknown wrapping is inferred wrapped exactly when the loaded
top-level mapping has an `ema` or `module` key; and every checkpoint treated
as wrapped is unwrapped at `load_key` when that key is present, and otherwise
fails with the KeyError that lists the available keys. -/
theorem c6_file_mode_unwrap (loadKey dw modelPath : String)
    (glob : List String) (sd : List (String × PyObj)) :
    resolveExplicit loadKey dw ⟨false, true, glob⟩ = .ok (dw, .unknown) ∧
    (inferBare .unknown sd = .no ↔
      (hasKey sd "ema" = true ∨ hasKey sd "module" = true)) ∧
    (inferBare .unknown sd = .no →
      (∀ v, lookupKey sd loadKey = some v →
        unwrapLoaded loadKey modelPath (inferBare .unknown sd) sd = .ok v) ∧
      (lookupKey sd loadKey = none →
        unwrapLoaded loadKey modelPath (inferBare .unknown sd) sd =
          .error (.missingLoadKey loadKey modelPath (keysOf sd)))) := by
  refine ⟨rfl, ?_, ?_⟩
  · cases he : hasKey sd "ema" <;> cases hm : hasKey sd "module" <;>
      simp [inferBare, he, hm]
  · intro hno
    constructor
    · intro v hv
      rw [hno]
      simp [unwrapLoaded, hv]
    · intro hv
      rw [hno]
      simp [unwrapLoaded, hv]

/-- Witness for C6 on a wrapped one-key checkpoint. -/
theorem c6_witness :
    resolveExplicit "ema" "/w.pt" ⟨false, true, []⟩ = .ok ("/w.pt", .unknown) ∧
    inferBare .unknown [("ema", PyObj.tensor 3)] = .no ∧
    unwrapLoaded "ema" "/w.pt" (inferBare .unknown [("ema", PyObj.tensor 3)])
      [("ema", PyObj.tensor 3)] = .ok (PyObj.tensor 3) := by
  have h := c6_file_mode_unwrap "ema" "/w.pt" "/w.pt" [] [("ema", PyObj.tensor 3)]
  have hno : inferBare .unknown [("ema", PyObj.tensor 3)] = .no :=
    h.2.1.mpr (Or.inl rfl)
  exact ⟨h.1, hno, (h.2.2 hno).1 (PyObj.tensor 3) rfl⟩

/-- C7: a text-encode closure bound to neither registered encoder fails with
the internal RuntimeError; bound to the first encoder it returns exactly the
`prompt_embeds_1` and `prompt_attention_mask_1` fields, and bound to the
second exactly the `prompt_embeds_2` field. -/
theorem c7_closure_binding_and_fields (enc enc1 enc2 : Nat) :
    (enc ≠ enc1 → enc ≠ enc2 →
      textEncoderIdx enc enc1 enc2 = .error .internalError) ∧
    (∀ idx, textEncoderIdx enc enc1 enc2 = .ok idx →
      (idx = 1 ∧
        closureFields idx = .ok ["prompt_embeds_1", "prompt_attention_mask_1"]) ∨
      (idx = 2 ∧ closureFields idx = .ok ["prompt_embeds_2"])) := by
  constructor
  · intro h1 h2
    simp [textEncoderIdx, h1, h2]
  · intro idx h
    unfold textEncoderIdx at h
    split at h
    · injection h with h1
      subst h1
      exact Or.inl ⟨rfl, rfl⟩
    · split at h
      · injection h with h1
        subst h1
        exact Or.inr ⟨rfl, rfl⟩
      · exact Except.noConfusion h

/-- Witness for C7: an encoder identity matching neither registered encoder is
rejected. -/
theorem c7_witness :
    textEncoderIdx 5 1 2 = .error .internalError :=
  (c7_closure_binding_and_fields 5 1 2).1 (by decide) (by decide)

/-- C8: save_adapter persists the adapter configuration first, then writes
`adapter_model.safetensors` in the save directory, whose entries are exactly
the adapter weights with every key renamed by prefixing `diffusion_model.`,
and whose container metadata is exactly `{"format": "pt"}`. -/
theorem c8_save_adapter (dir : String) (sd : List (String × Tensor)) :
    ∃ entries,
      saveAdapter dir sd =
        [.savePeftConfig dir,
          .saveFile (pathJoin dir "adapter_model.safetensors") entries
            [("format", "pt")]] ∧
      (∀ k v, (k, v) ∈ sd → ("diffusion_model." ++ k, v) ∈ entries) ∧
      (∀ e, e ∈ entries →
        ∃ k v, (k, v) ∈ sd ∧ e = ("diffusion_model." ++ k, v)) := by
  refine ⟨_, rfl, ?_, ?_⟩
  · intro k v hkv
    exact List.mem_map.mpr ⟨(k, v), hkv, rfl⟩
  · intro e he
    obtain ⟨⟨k, v⟩, hkv, hkv2⟩ := List.mem_map.mp he
    exact ⟨k, v, hkv, hkv2.symm⟩

/-- Witness for C8 on a one-entry adapter state dict. -/
theorem c8_witness :
    (saveAdapter "/out" [("a", 3)]).headD (.savePeftConfig "") =
      .savePeftConfig "/out" ∧
    (saveAdapter "/out" [("a", 3)]).length = 2 := by
  obtain ⟨entries, heq, hf, hb⟩ := c8_save_adapter "/out" [("a", 3)]
  rw [heq]
  exact ⟨rfl, rfl⟩

/-- C4: every named model parameter is materialized onto CPU from the
checkpoint entry of the same name, at bfloat16 when its name contains one of
the kept substrings and at the caller-requested dtype otherwise; a model
parameter with no matching checkpoint entry raises the KeyError. -/
theorem c4_dtype_policy (modelParams : List String)
    (sd : List (String × PyObj)) (dtype : DType) :
    (∀ placements, materializeParams modelParams sd dtype = .ok placements →
      placements.map (fun p => p.name) = modelParams ∧
      ∀ p, p ∈ placements →
        p.device = "cpu" ∧
        lookupKey sd p.name = some p.value ∧
        p.dtype = (if paramsToKeep.any (fun kw => strContains p.name kw)
                   then DType.bf16 else dtype)) ∧
    ((∃ name, name ∈ modelParams ∧ lookupKey sd name = Option.none) →
      ∃ name, name ∈ modelParams ∧ lookupKey sd name = Option.none ∧
        materializeParams modelParams sd dtype = .error (.missingParam name)) := by
  induction modelParams with
  | nil =>
    constructor
    · intro placements h
      simp only [materializeParams, Except.ok.injEq] at h
      subst h
      exact ⟨rfl, fun p hp => absurd hp (List.not_mem_nil p)⟩
    · rintro ⟨name, hmem, _⟩
      exact absurd hmem (List.not_mem_nil name)
  | cons name rest ih =>
    constructor
    · intro placements h
      cases hl : lookupKey sd name with
      | none =>
        simp only [materializeParams, hl] at h
        exact Except.noConfusion h
      | some v =>
        cases hr : materializeParams rest sd dtype with
        | error e =>
          simp only [materializeParams, hl, hr] at h
          exact Except.noConfusion h
        | ok tail =>
          simp only [materializeParams, hl, hr, Except.ok.injEq] at h
          subst h
          have ihh := ih.1 tail hr
          constructor
          · simp [ihh.1]
          · intro p hp
            rcases List.mem_cons.mp hp with hphead | hptail
            · subst hphead
              exact ⟨rfl, hl, rfl⟩
            · exact ihh.2 p hptail
    · rintro ⟨n, hmem, hnone⟩
      rcases List.mem_cons.mp hmem with rfl | hrest
      · refine ⟨n, List.mem_cons_self n rest, hnone, ?_⟩
        simp only [materializeParams, hnone]
      · cases hl : lookupKey sd name with
        | none =>
          refine ⟨name, List.mem_cons_self name rest, hl, ?_⟩
          simp only [materializeParams, hl]
        | some v =>
          obtain ⟨n2, hmem2, hnone2, herr⟩ := ih.2 ⟨n, hrest, hnone⟩
          refine ⟨n2, List.mem_cons_of_mem name hmem2, hnone2, ?_⟩
          simp only [materializeParams, hl, herr]

/-- Witness for C4: over two parameters, the `img_in`-keyword parameter gets
bfloat16 and the other gets the requested dtype, both on CPU; a parameter
missing from the checkpoint raises the KeyError naming it. -/
theorem c4_witness :
    c4Placements.map (fun p => p.name) = ["img_in.w", "p.w"] ∧
    (c4Placements.headD default).device = "cpu" ∧
    (c4Placements.headD default).dtype =
      (if paramsToKeep.any (fun kw => strContains "img_in.w" kw)
       then DType.bf16 else DType.fp16) ∧
    materializeParams ["zzz"] [] DType.fp16 = .error (.missingParam "zzz") := by
  have h := (c4_dtype_policy ["img_in.w", "p.w"]
      [("img_in.w", PyObj.tensor 1), ("p.w", PyObj.tensor 2)] DType.fp16).1
      c4Placements rfl
  have hc : c4Placements =
      [⟨"img_in.w", "cpu", .bf16, PyObj.tensor 1⟩,
       ⟨"p.w", "cpu", .fp16, PyObj.tensor 2⟩] := rfl
  have hmem : (⟨"img_in.w", "cpu", .bf16, PyObj.tensor 1⟩ : ParamPlacement) ∈
      c4Placements := by
    rw [hc]
    exact List.mem_cons_self _ _
  have h2 := h.2 ⟨"img_in.w", "cpu", .bf16, PyObj.tensor 1⟩ hmem
  refine ⟨h.1, ?_, ?_, ?_⟩
  · rw [hc]
    exact h2.1
  · rw [hc]
    exact h2.2.2
  · obtain ⟨n, hmem2, hnone2, herr⟩ :=
      (c4_dtype_policy ["zzz"] [] DType.fp16).2 ⟨"zzz", by simp, rfl⟩
    have hn : n = "zzz" := by simpa using hmem2
    subst hn
    exact herr

/-- Helper: the closure bound to the first encoder sets the encoder's
`max_length` immediately before each encode call — to the video limit for a
video sample, to the image limit for an image sample — independently of the
starting state. -/
theorem runTextClosure_one_spec (maxV maxI : Nat) (samples : List Bool) :
    ∀ st : Nat,
      (runTextClosure 1 maxV maxI samples st).1 =
        samples.map (fun isVideo =>
          ⟨if isVideo then "video" else "image",
           if isVideo then maxV else maxI⟩) := by
  induction samples with
  | nil => intro st; rfl
  | cons v rest ih =>
    intro st
    cases v <;> simp [runTextClosure, ih]

/-- Helper: the closure bound to the second encoder never mutates the
threaded `max_length` state: every encode call sees the starting state and
the final state is the starting state. -/
theorem runTextClosure_two_spec (maxV maxI : Nat) (samples : List Bool) :
    ∀ st : Nat,
      runTextClosure 2 maxV maxI samples st =
        (samples.map (fun isVideo =>
          ⟨if isVideo then "video" else "image", st⟩), st) := by
  induction samples with
  | nil => intro st; rfl
  | cons v rest ih =>
    intro st
    cases v <;> simp [runTextClosure, ih]

/-- C5: in the closure bound to the first encoder every sample is encoded
with `max_length` set immediately beforehand to the video limit (base text
length plus the video template's crop offset) for video samples and the
image limit (base plus the image template's crop offset) otherwise, so a
video and an image sample in the same call see two different effective
truncation lengths whenever the limits differ; the closure bound to the
second encoder never mutates the `max_length` state. -/
theorem c5_per_sample_max_length (textLen : Nat) (cropV cropI : Option Nat)
    (samples : List Bool) (st0 st1 : Nat) :
    ((runTextClosure 1 (maxTextLengthVideo textLen cropV)
        (maxTextLengthImage textLen cropI) samples st0).1 =
      samples.map (fun isVideo =>
        ⟨if isVideo then "video" else "image",
         if isVideo then maxTextLengthVideo textLen cropV
         else maxTextLengthImage textLen cropI⟩)) ∧
    (runTextClosure 2 (maxTextLengthVideo textLen cropV)
        (maxTextLengthImage textLen cropI) samples st1).2 = st1 ∧
    (maxTextLengthVideo textLen cropV ≠ maxTextLengthImage textLen cropI →
      ∀ i j, i < samples.length → j < samples.length →
        samples.getD i false = true → samples.getD j false = false →
        ((runTextClosure 1 (maxTextLengthVideo textLen cropV)
            (maxTextLengthImage textLen cropI) samples st0).1.getD i
              ⟨"", 0⟩).maxLengthAtCall ≠
          ((runTextClosure 1 (maxTextLengthVideo textLen cropV)
              (maxTextLengthImage textLen cropI) samples st0).1.getD j
                ⟨"", 0⟩).maxLengthAtCall) := by
  have h1 := runTextClosure_one_spec (maxTextLengthVideo textLen cropV)
      (maxTextLengthImage textLen cropI) samples st0
  have key : ∀ k : Nat, k < samples.length →
      ((samples.map (fun isVideo =>
          (⟨if isVideo then "video" else "image",
            if isVideo then maxTextLengthVideo textLen cropV
            else maxTextLengthImage textLen cropI⟩ : EncodeEvent))).getD k
        ⟨"", 0⟩) =
      ⟨if samples.getD k false then "video" else "image",
       if samples.getD k false then maxTextLengthVideo textLen cropV
       else maxTextLengthImage textLen cropI⟩ := by
    intro k hk
    rw [List.getD_eq_getElem?_getD, List.getElem?_map,
      List.getElem?_eq_getElem hk, List.getD_eq_getElem?_getD,
      List.getElem?_eq_getElem hk]
    rfl
  refine ⟨h1, ?_, ?_⟩
  · rw [runTextClosure_two_spec]
  · intro hne i j hi hj hsi hsj
    rw [h1, key i hi, key j hj, hsi, hsj]
    simpa using hne

/-- Witness for C5: a video and an image sample in one call, with the
default-like lengths 256+95 and 256+36, are encoded under different
max_length values, and the second encoder's closure leaves the state at its
starting value. -/
theorem c5_witness :
    ((runTextClosure 1 (maxTextLengthVideo 256 (some 95))
        (maxTextLengthImage 256 (some 36)) [true, false] 77).1.getD 0
          ⟨"", 0⟩).maxLengthAtCall ≠
      ((runTextClosure 1 (maxTextLengthVideo 256 (some 95))
          (maxTextLengthImage 256 (some 36)) [true, false] 77).1.getD 1
            ⟨"", 0⟩).maxLengthAtCall ∧
    (runTextClosure 2 (maxTextLengthVideo 256 (some 95))
        (maxTextLengthImage 256 (some 36)) [true, false] 77).2 = 77 := by
  have h := c5_per_sample_max_length 256 (some 95) (some 36) [true, false] 77 77
  exact ⟨h.2.2 (by decide) 0 1 (by decide) (by decide) (by decide) (by decide),
    h.2.1⟩

/-- Helper: the base-distribution selection at the two recognized method
names. -/
theorem distIcdf_uniform {α : Type} (f : α → α) :
    distIcdf "uniform" f = some (fun q => q) := rfl

/-- Helper: the logit-normal method selects the standard normal's inverse
CDF. -/
theorem distIcdf_logit_normal {α : Type} (f : α → α) :
    distIcdf "logit_normal" f = some f := rfl

/-- C2: for every batch, the returned noisy input equals
`(1 - t) * x_1 + t * x_0` and the returned regression target equals
`x_0 - x_1`, elementwise at every batch element and tensor position, where
`t` is the per-batch sampled fraction whose ×1000 rescale is the returned
timestep tensor. -/
theorem c2_noise_and_target {α T : Type} [Field α] (cfg : ModelConfig α)
    (normalIcdf sigmoidFn : α → α) (rope : Nat → Nat → Nat → T × T)
    (expandB : T → Nat → T) (bs numFrames hh ww : Nat)
    (latents noise : Nat → Nat → α) (tSample : Nat → α) (q : Option α)
    (pe1 mask1 pe2 : T) (out : PrepOut α T)
    (hok : prepareInputs cfg normalIcdf sigmoidFn rope expandB bs numFrames hh
        ww latents noise tSample q pe1 mask1 pe2 = .ok out) :
    ∃ tb : Nat → α,
      (∀ b, out.t b = tb b * 1000) ∧
      (∀ b p, out.x_t b p = (1 - tb b) * latents b p + tb b * noise b p) ∧
      (∀ b p, out.target b p = noise b p - latents b p) := by
  simp only [prepareInputs] at hok
  cases hd : distIcdf (cfg.timestep_sample_method.getD "logit_normal")
      normalIcdf with
  | none =>
    rw [hd] at hok
    exact Except.noConfusion hok
  | some icdf =>
    rw [hd] at hok
    injection hok with h1
    subst h1
    exact ⟨computeT (cfg.timestep_sample_method.getD "logit_normal")
        (cfg.sigmoid_scale.getD 1) sigmoidFn icdf tSample q,
      fun b => rfl, fun b p => rfl, fun b p => rfl⟩

/-- Witness for C2 over `ℚ`: constant latents 3, noise 5, uniform timestep
quantile 1/2; the target is 2 and the noisy input 4 everywhere. -/
theorem c2_witness : c2Out.target 0 0 = 2 ∧ c2Out.x_t 0 0 = 4 := by
  obtain ⟨tb, ht, hx, htg⟩ := c2_noise_and_target
      ⟨Option.none, Option.some "uniform", Option.none⟩ id id
      (fun _ _ _ => ((), ())) (fun u _ => u) 1 1 1 1
      (fun _ _ => 3) (fun _ _ => 5) (fun _ => 0) (Option.some (1 / 2)) () () ()
      c2Out rfl
  have h5 : c2Out.t 0 = 1 / 2 * 1000 := rfl
  have htb : tb 0 = 1 / 2 := by
    have h6 := ht 0
    rw [h5] at h6
    linarith
  have h7 := hx 0 0
  rw [htb] at h7
  constructor
  · rw [htg 0 0]
    norm_num
  · rw [h7]
    norm_num

/-- Helper: the real sigmoid at zero equals one half. -/
theorem realSigmoid_zero : realSigmoid 0 = 1 / 2 := by
  norm_num [realSigmoid, Real.exp_zero]

/-- C3: with a fixed timestep quantile, the timestep is the inverse CDF of
the configured base distribution at that quantile (for `logit_normal`,
applied before the sigmoid step), and the returned tensor is the in-(0, 1)
value rescaled by 1000; in particular the uniform method at quantile 1/2
returns 1/2 × 1000 for every batch element, and the logit-normal method with
`sigmoid_scale` 1 at quantile 1/2 returns `sigmoid(0) × 1000 = 500`. -/
theorem c3_quantile_timestep {T : Type} (cfg : ModelConfig ℝ)
    (normalIcdf : ℝ → ℝ) (rope : Nat → Nat → Nat → T × T)
    (expandB : T → Nat → T) (bs numFrames hh ww : Nat)
    (latents noise : Nat → Nat → ℝ) (tSample : Nat → ℝ) (q : ℝ)
    (pe1 mask1 pe2 : T) (out : PrepOut ℝ T)
    (hok : prepareInputs cfg normalIcdf realSigmoid rope expandB bs numFrames
        hh ww latents noise tSample (some q) pe1 mask1 pe2 = .ok out) :
    (cfg.timestep_sample_method.getD "logit_normal" = "uniform" →
      ∀ b, out.t b = q * 1000) ∧
    (cfg.timestep_sample_method.getD "logit_normal" = "logit_normal" →
      (∀ b, out.t b =
        realSigmoid (normalIcdf q * cfg.sigmoid_scale.getD 1) * 1000) ∧
      (normalIcdf (1 / 2) = 0 → cfg.sigmoid_scale.getD 1 = 1 → q = 1 / 2 →
        ∀ b, out.t b = 500)) := by
  constructor
  · intro hm
    simp only [prepareInputs] at hok
    rw [hm, distIcdf_uniform] at hok
    injection hok with h1
    subst h1
    intro b
    rfl
  · intro hm
    simp only [prepareInputs] at hok
    rw [hm, distIcdf_logit_normal] at hok
    injection hok with h1
    subst h1
    constructor
    · intro b
      rfl
    · intro hicdf hscale hq
      subst hq
      intro b
      show realSigmoid (normalIcdf (1 / 2) * cfg.sigmoid_scale.getD 1) *
          1000 = 500
      rw [hicdf, hscale]
      norm_num [realSigmoid_zero]

/-- Witness for C3: the logit-normal run at quantile 1/2 (with the inverse
normal CDF taking its true value 0 there) returns timestep 500 = 0.5 × 1000. -/
theorem c3_witness : c3Out.t 0 = 500 := by
  have h := c3_quantile_timestep
      ⟨Option.none, Option.some "logit_normal", Option.none⟩
      (fun _ => 0) (fun _ _ _ => ((), ())) (fun u _ => u) 1 1 1 1
      (fun _ _ => 0) (fun _ _ => 0) (fun _ => 0) (1 / 2) () () () c3Out rfl
  exact (h.2 rfl).2 rfl rfl rfl 0

end HYV
